import Mathlib

/-!
Verification of the protoagent Turn Supervisor core.

The definitions below are a shallow embedding of the TypeScript sources:
- `Resilience.*` embeds `ResilienceManager` (pending-turn marker, error log,
  crash log, dirty-boot handling, circuit breaker);
- `Guardrails.*` embeds `TurnLogger`, `ParamsManager` and `TurnWatchdog`;
- `Service.*` embeds the per-user lock discipline of `AgentService.processMessage`;
- `Boot.*` embeds the boot sequence of the main entry point.

File-backed state is modelled as explicit record fields; an absent file is
`Option.none`.  JavaScript truthiness tests on strings (`if (!s)`) are made
explicit as emptiness tests.  Timestamps are abstract `Nat` inputs.
-/

namespace Resilience

/-- A crash record as persisted in `CRASHES.json` (`recordCrash`). -/
structure CrashRecord where
  timestamp : Nat
  pendingPrompt : String
  errorLog : String
deriving Repr, DecidableEq

/-- The durable state touched by `ResilienceManager`: the pending-turn marker
file, the error-log file and the crash-log file.  `none` means the file does
not exist on disk. -/
structure State where
  pendingTurn : Option String
  errorLog : Option String
  crashes : List CrashRecord
deriving Repr, DecidableEq

/-- `getPendingTurn`: the marker file's content, or `null` when absent. -/
def getPendingTurn (s : State) : Option String :=
  s.pendingTurn

/-- `savePendingTurn`: write the prompt to the marker file. -/
def savePendingTurn (prompt : String) (s : State) : State :=
  { s with pendingTurn := some prompt }

/-- `clearPendingTurn`: delete the marker file if it exists. -/
def clearPendingTurn (s : State) : State :=
  { s with pendingTurn := none }

/-- `getErrorLog`: the error-log file's content, or the empty string when
absent. -/
def getErrorLog (s : State) : String :=
  (s.errorLog).getD ""

/-- `logError`: append a line to the error-log file (content abstracted to the
message text). -/
def logError (line : String) (s : State) : State :=
  { s with errorLog := some ((s.errorLog).getD "" ++ line) }

/-- `clearErrorLog`: delete the error-log file if it exists. -/
def clearErrorLog (s : State) : State :=
  { s with errorLog := none }

/-- `recordCrash`: load the crash log, push a new record, save it back. -/
def recordCrash (now : Nat) (pendingPrompt errorLog : String) (s : State) : State :=
  { s with crashes := s.crashes ++ [⟨now, pendingPrompt, errorLog⟩] }

/-- `getCrashes`: all stored crash records. -/
def getCrashes (s : State) : List CrashRecord :=
  s.crashes

/-- `clearCrashLog`: delete the crash-log file. -/
def clearCrashLog (s : State) : State :=
  { s with crashes := [] }

/-- `isDirtyBoot`: true iff `getPendingTurn() !== null`, i.e. the marker file
exists (whatever its content). -/
def isDirtyBoot (s : State) : Bool :=
  (getPendingTurn s).isSome

/-- `shouldHalt`: true iff the number of stored crashes is at least
`maxCrashes`. -/
def shouldHalt (maxCrashes : Nat) (s : State) : Bool :=
  maxCrashes ≤ (getCrashes s).length

/-- The record returned by `handleDirtyBoot`. -/
structure CrashInfo where
  pendingPrompt : String
  errorLog : String
  crashCount : Nat
deriving Repr, DecidableEq

/-- `handleDirtyBoot`: read the marker; `if (!pendingPrompt)` return null —
in JavaScript both a missing marker and an empty-string marker are falsy.
Otherwise record the crash, clear the error log and the marker, and return
the crash info with the post-record crash count. -/
def handleDirtyBoot (now : Nat) (s : State) : Option CrashInfo × State :=
  match getPendingTurn s with
  | none => (none, s)
  | some pendingPrompt =>
    if pendingPrompt = "" then (none, s)
    else
      let errorLog := getErrorLog s
      let s1 := recordCrash now pendingPrompt errorLog s
      let s2 := clearErrorLog s1
      let s3 := clearPendingTurn s2
      (some ⟨pendingPrompt, errorLog, (getCrashes s3).length⟩, s3)

/-- `handleCleanBoot`: clear crash log, error log and pending marker. -/
def handleCleanBoot (s : State) : State :=
  clearPendingTurn (clearErrorLog (clearCrashLog s))

end Resilience

namespace Boot

/-- Observable steps of the boot sequence in `main` (entry point), in program
order.  `channelsStarted` marks the earliest point at which a turn could be
dispatched. -/
inductive Event where
  | dirtyDetected (dirty : Bool)
  | crashRecorded (prompt : String)
  | cleanBootHandled
  | breakerChecked (halt : Bool)
  | operatorNotified
  | exited (code : Nat)
  | channelsStarted
deriving Repr, DecidableEq

open Resilience in
/-- The resilience-relevant part of `main`: detect dirty boot, record the
crash FIRST (`handleDirtyBoot`) or handle a clean boot, then evaluate the
circuit breaker; when tripped, attempt the operator notification and exit
with status 1 before any channel is started. -/
def bootSequence (maxCrashes now : Nat) (s : Resilience.State) :
    List Event × Resilience.State :=
  let dirty := isDirtyBoot s
  let (evs, s1) :=
    if dirty then
      let (info, s') := handleDirtyBoot now s
      (match info with
       | some i => [Event.crashRecorded i.pendingPrompt]
       | none => [], s')
    else
      ([Event.cleanBootHandled], handleCleanBoot s)
  if shouldHalt maxCrashes s1 then
    (Event.dirtyDetected dirty :: evs ++
       [Event.breakerChecked true, Event.operatorNotified, Event.exited 1], s1)
  else
    (Event.dirtyDetected dirty :: evs ++
       [Event.breakerChecked false, Event.channelsStarted], s1)

end Boot

namespace Guardrails

/-- A parameter value (`AgentParams` is a free-form key/value bag in the
source; the value type is abstracted to the shapes the core reads). -/
inductive PVal where
  | nat (n : Nat)
  | str (s : String)
  | bool (b : Bool)
deriving Repr, DecidableEq

/-- `AgentParams`: a flat object, modelled as an association list on keys
(first binding wins, as a JS object has at most one binding per key; the
operations below keep keys unique by updating in place). -/
abbrev AgentParams := List (String × PVal)

/-- Look a key up in a params object. -/
def getKey (ps : AgentParams) (k : String) : Option PVal :=
  (ps.find? (fun kv => kv.1 = k)).map (·.2)

/-- JS property assignment `obj[k] = v`: update the binding in place, or
append a new one. -/
def setKey (ps : AgentParams) (k : String) (v : PVal) : AgentParams :=
  match ps with
  | [] => [(k, v)]
  | (k', v') :: rest =>
    if k' = k then (k, v) :: rest else (k', v') :: setKey rest k v

/-- JS object spread `{ ...a, ...b }`: bindings of `b` win over those of
`a`. -/
def mergeParams (a b : AgentParams) : AgentParams :=
  b.foldl (fun acc kv => setKey acc kv.1 kv.2) a

/-- `ParamsManager.getTurnTimeout`: `currentParams.turnTimeout || 600000`
(JS `||`: both an absent and a zero timeout fall back to the default). -/
def getTurnTimeout (ps : AgentParams) : Nat :=
  match getKey ps "turnTimeout" with
  | some (PVal.nat n) => if n = 0 then 600000 else n
  | _ => 600000

/-- A turn action's tag (`TurnAction.type`). -/
inductive ActionType where
  | text_response
  | tool_call
  | tool_result
  | error
deriving Repr, DecidableEq

/-- A logged turn action; `toolName` is present on tool calls / results. -/
structure TurnAction where
  type : ActionType
  timestamp : Nat
  toolName : Option String := none
deriving Repr, DecidableEq

/-- A `TurnLog` record. -/
structure TurnLog where
  turnId : String
  timestamp : Nat
  userPrompt : String
  actions : List TurnAction
  params : AgentParams
  duration : Nat
  completed : Bool
  abortReason : Option String := none
deriving Repr, DecidableEq

/-- The mutable state of a `TurnLogger` instance plus the
`LOGGED_TURNS.json` file. -/
structure LoggerState where
  currentTurn : Option TurnLog
  turnStartTime : Nat
  loggedTurns : List TurnLog
deriving Repr, DecidableEq

/-- The default-completion `startTurn` applies to its params
(`turnTimeout || 600000`, `temperature ?? 0.7`, `maxTokens || 4096` spread
under the caller's params). -/
def completeParams (params : AgentParams) : AgentParams :=
  let defaults : AgentParams :=
    [("turnTimeout", PVal.nat (getTurnTimeout params)),
     ("temperature", (getKey params "temperature").getD (PVal.str "0.7")),
     ("maxTokens", match getKey params "maxTokens" with
       | some (PVal.nat n) => if n = 0 then PVal.nat 4096 else PVal.nat n
       | some v => v
       | none => PVal.nat 4096)]
  mergeParams defaults params

/-- `TurnLogger.startTurn`: open a fresh `TurnLog` (the generated id and the
wall clock are inputs). -/
def startTurn (turnId : String) (now : Nat) (userPrompt : String)
    (params : AgentParams) (st : LoggerState) : LoggerState :=
  { currentTurn := some
      { turnId := turnId
        timestamp := now
        userPrompt := userPrompt
        actions := []
        params := completeParams params
        duration := 0
        completed := false }
    turnStartTime := now
    loggedTurns := st.loggedTurns }

/-- `TurnLogger.logAction`: push an action onto the open turn (no-op when no
turn is open). -/
def logAction (a : TurnAction) (st : LoggerState) : LoggerState :=
  match st.currentTurn with
  | none => st
  | some t => { st with currentTurn := some { t with actions := t.actions ++ [a] } }

/-- `Array.prototype.slice(-n)`: the last `n` elements (the whole list when
it is shorter than `n`). -/
def sliceLast (n : Nat) (xs : List α) : List α :=
  xs.drop (xs.length - n)

/-- `TurnLogger.saveTurnLog`: append the finalized turn to the persisted
array and keep only the last 100 entries. -/
def saveTurnLog (turn : TurnLog) (logged : List TurnLog) : List TurnLog :=
  sliceLast 100 (logged ++ [turn])

/-- `TurnLogger.endTurn`: finalize the open turn (duration against `now`,
completed flag, abort reason when truthy), persist it through
`saveTurnLog`, reset the logger, and return the finalized record. -/
def endTurn (now : Nat) (completed : Bool) (abortReason : Option String)
    (st : LoggerState) : LoggerState × Option TurnLog :=
  match st.currentTurn with
  | none => (st, none)
  | some t =>
    let t1 := { t with
      duration := now - st.turnStartTime
      completed := completed
      abortReason := match abortReason with
        | some r => if r = "" then t.abortReason else some r
        | none => t.abortReason }
    ({ currentTurn := none
       turnStartTime := 0
       loggedTurns := saveTurnLog t1 st.loggedTurns }, some t1)

/-- `TurnLogger.getCurrentTurn`: a snapshot of the open turn with the
duration computed against `now`. -/
def getCurrentTurn (now : Nat) (st : LoggerState) : Option TurnLog :=
  st.currentTurn.map (fun t => { t with duration := now - st.turnStartTime })

/-- Where a watchdog analysis came from. -/
inductive AnalysisSource where
  | heuristic
  | agent
deriving Repr, DecidableEq

/-- `WatchdogAnalysis`. -/
structure WatchdogAnalysis where
  isStuck : Bool
  reason : Option String := none
  recommendation : String
  analysisSource : AnalysisSource
deriving Repr, DecidableEq

/-- `TurnWatchdog.hasRepetitivePattern`: look at the last 6 actions; with at
least 4 tool calls among them, flag when all tool names coincide
(`new Set(toolNames).size === 1`) or when the FIRST four tool names satisfy
`toolNames[0] === toolNames[2] && toolNames[1] === toolNames[3]`. -/
def hasRepetitivePattern (actions : List TurnAction) : Bool :=
  if actions.length < 6 then false
  else
    let recentActions := sliceLast 6 actions
    let toolCalls := recentActions.filter (fun a => a.type = ActionType.tool_call)
    if 4 ≤ toolCalls.length then
      let toolNames := toolCalls.map (·.toolName)
      if toolNames.dedup.length = 1 then true
      else
        match toolNames with
        | a :: b :: c :: d :: _ => a = c ∧ b = d
        | _ => false
    else false

/-- `TurnWatchdog.hasNoProgress`: stuck when no actions at all, or when at
least 3 of the last 5 actions are errors. -/
def hasNoProgress (actions : List TurnAction) : Bool :=
  if actions.length = 0 then true
  else
    let recentActions := sliceLast 5 actions
    3 ≤ (recentActions.filter (fun a => a.type = ActionType.error)).length

/-- The repetition reason string produced by `analyzeWithHeuristics`. -/
def repetitiveReason : String :=
  "Detected repetitive action pattern (possible infinite loop)"

/-- `TurnWatchdog.analyzeWithHeuristics`, with the params manager's
`getTurnTimeout()` passed in as `timeout`. -/
def analyzeWithHeuristics (timeout : Nat) (turn : TurnLog) : WatchdogAnalysis :=
  if timeout < turn.duration then
    if hasRepetitivePattern turn.actions then
      { isStuck := true
        reason := some repetitiveReason
        recommendation := "Abort turn and notify user"
        analysisSource := AnalysisSource.heuristic }
    else if hasNoProgress turn.actions then
      { isStuck := true
        reason := some "No meaningful progress detected within timeout"
        recommendation := "Abort turn and notify user"
        analysisSource := AnalysisSource.heuristic }
    else
      { isStuck := true
        reason := some ("Turn exceeded timeout of " ++ toString (timeout / 1000) ++ " seconds")
        recommendation := "Abort turn and notify user"
        analysisSource := AnalysisSource.heuristic }
  else
    { isStuck := false
      recommendation := "Continue monitoring"
      analysisSource := AnalysisSource.heuristic }

/-- Outcome of invoking the registered analyst callback: it either returns
an analysis or throws. -/
inductive AnalystOutcome where
  | ok (a : WatchdogAnalysis)
  | thrown
deriving Repr, DecidableEq

/-- The analysis `TurnWatchdog.checkIfStuck` settles on: `none` when no turn
is open (deadline lost the race); otherwise the heuristic verdict when no
analyst is registered or the analyst throws, and the analyst's verdict
(restamped `agent`) when it returns. -/
def checkIfStuckVerdict (timeout : Nat) (currentTurn : Option TurnLog)
    (analyst : Option AnalystOutcome) : Option WatchdogAnalysis :=
  match currentTurn with
  | none => none
  | some turn =>
    let heuristicAnalysis := analyzeWithHeuristics timeout turn
    some
      (if heuristicAnalysis.isStuck && analyst.isNone then heuristicAnalysis
       else match analyst with
         | some (AnalystOutcome.ok a) => { a with analysisSource := AnalysisSource.agent }
         | some AnalystOutcome.thrown => heuristicAnalysis
         | none => heuristicAnalysis)

/-- What `checkIfStuck` does with the settled analysis. -/
inductive WatchdogDecision where
  | noTurn
  | stuck (a : WatchdogAnalysis)
  | notStuckReschedule
deriving Repr, DecidableEq

/-- `TurnWatchdog.checkIfStuck`: on a stuck verdict, deliver it to the
`onStuck` callback; otherwise reschedule while the turn is still open. -/
def checkIfStuck (timeout : Nat) (currentTurn : Option TurnLog)
    (analyst : Option AnalystOutcome) : WatchdogDecision :=
  match checkIfStuckVerdict timeout currentTurn analyst with
  | none => WatchdogDecision.noTurn
  | some a => if a.isStuck then WatchdogDecision.stuck a else WatchdogDecision.notStuckReschedule

end Guardrails

namespace Params

/-! `ParamsManager` with explicit JS object identity: the heap is a list of
parameter objects, a reference is an index, `{ ...obj }` allocates a fresh
object.  This makes the difference between returning `this.currentParams`
and returning a copy of it observable. -/

abbrev Ref := Nat

abbrev Heap := List Guardrails.AgentParams

/-- Read the object a reference points to. -/
def readObj (h : Heap) (r : Ref) : Guardrails.AgentParams :=
  (h[r]?).getD []

/-- Overwrite the object a reference points to. -/
def writeObj (h : Heap) (r : Ref) (v : Guardrails.AgentParams) : Heap :=
  h.set r v

/-- Allocate a fresh object. -/
def alloc (h : Heap) (v : Guardrails.AgentParams) : Heap × Ref :=
  (h ++ [v], h.length)

/-- A `ParamsManager` instance: references to its `currentParams` and
`defaultParams` objects. -/
structure PMState where
  heap : Heap
  currentRef : Ref
  defaultRef : Ref
deriving Repr, DecidableEq

/-- The manager's references point into the heap. -/
def Valid (s : PMState) : Prop :=
  s.currentRef < s.heap.length ∧ s.defaultRef < s.heap.length

/-- `ParamsManager.getParams`: `return { ...this.currentParams }` — allocate
a shallow copy and hand the caller a reference to it. -/
def getParams (s : PMState) : PMState × Ref :=
  let (h, r) := alloc s.heap (readObj s.heap s.currentRef)
  ({ s with heap := h }, r)

/-- `ParamsManager.setParam`: `this.currentParams[key] = value` — in-place
update of the current object. -/
def setParam (k : String) (v : Guardrails.PVal) (s : PMState) : PMState :=
  { s with heap :=
      writeObj s.heap s.currentRef (Guardrails.setKey (readObj s.heap s.currentRef) k v) }

/-- `ParamsManager.setParams`:
`this.currentParams = { ...this.currentParams, ...params }` — allocate the
merged object and repoint `currentParams`. -/
def setParams (ps : Guardrails.AgentParams) (s : PMState) : PMState :=
  let (h, r) := alloc s.heap (Guardrails.mergeParams (readObj s.heap s.currentRef) ps)
  { heap := h, currentRef := r, defaultRef := s.defaultRef }

/-- `ParamsManager.resetToDefaults`:
`this.currentParams = { ...this.defaultParams }`. -/
def resetToDefaults (s : PMState) : PMState :=
  let (h, r) := alloc s.heap (readObj s.heap s.defaultRef)
  { heap := h, currentRef := r, defaultRef := s.defaultRef }

/-- `ParamsManager.saveAsDefaults`: persist and
`this.defaultParams = { ...this.currentParams }`. -/
def saveAsDefaults (s : PMState) : PMState :=
  let (h, r) := alloc s.heap (readObj s.heap s.currentRef)
  { heap := h, currentRef := s.currentRef, defaultRef := r }

/-- A caller mutating an object it got back (`obj[k] = v` on the returned
reference). -/
def assignKey (r : Ref) (k : String) (v : Guardrails.PVal) (s : PMState) : PMState :=
  { s with heap := writeObj s.heap r (Guardrails.setKey (readObj s.heap r) k v) }

end Params

namespace Guardrails

/-- The inputs of one complete logged turn: what `startTurn`, the action
logging and `endTurn` are called with while the Supervisor drives a turn. -/
structure TurnSpec where
  turnId : String
  startTime : Nat
  prompt : String
  params : AgentParams
  actions : List TurnAction
  endTime : Nat
  completed : Bool
  abortReason : Option String
deriving Repr, DecidableEq

/-- Drive one turn through the logger: `startTurn`, log each action,
`endTurn`. -/
def runTurn (st : LoggerState) (sp : TurnSpec) : LoggerState :=
  let st1 := startTurn sp.turnId sp.startTime sp.prompt sp.params st
  let st2 := sp.actions.foldl (fun acc a => logAction a acc) st1
  (endTurn sp.endTime sp.completed sp.abortReason st2).1

/-- The finalized `TurnLog` such a turn persists. -/
def finalizedOf (sp : TurnSpec) : TurnLog :=
  { turnId := sp.turnId
    timestamp := sp.startTime
    userPrompt := sp.prompt
    actions := sp.actions
    params := completeParams sp.params
    duration := sp.endTime - sp.startTime
    completed := sp.completed
    abortReason := match sp.abortReason with
      | some r => if r = "" then none else some r
      | none => none }

end Guardrails

namespace Service

/-- The per-user lock plus the durable state `AgentService.processMessage`
touches. -/
structure State where
  processingLock : List (String × Bool)
  resilience : Resilience.State
  logger : Guardrails.LoggerState
deriving Repr, DecidableEq

/-- `Map.prototype.get` on the lock map, with the `|| false` default of
`isProcessing`. -/
def lockGet (m : List (String × Bool)) (u : String) : Bool :=
  (((m.find? (fun kv => kv.1 = u)).map (·.2)).getD false)

/-- `Map.prototype.set` on the lock map. -/
def lockSet (m : List (String × Bool)) (u : String) (b : Bool) : List (String × Bool) :=
  match m with
  | [] => [(u, b)]
  | (u', b') :: rest => if u' = u then (u, b) :: rest else (u', b') :: lockSet rest u b

/-- `AgentService.isProcessing`. -/
def isProcessing (userId : String) (s : State) : Bool :=
  lockGet s.processingLock userId

/-- How the dispatched provider call resolves: a full response, a provider
error, or a watchdog stuck-abort. -/
inductive Outcome where
  | success (response : String)
  | providerError (msg : String)
  | stuckAbort (reason : String)
deriving Repr, DecidableEq

/-- `AgentService.handleStuckAgent`: abort the provider, stop the watchdog,
finalize the turn as aborted, clear provider context and the journal marker,
release the user's lock. -/
def handleStuckAgent (userId reason : String) (now : Nat) (s : State) : State :=
  let lg := (Guardrails.endTurn now false (some reason) s.logger).1
  { processingLock := lockSet s.processingLock userId false
    resilience := Resilience.clearPendingTurn s.resilience
    logger := lg }

/-- `AgentService.processMessage` with the provider's behaviour supplied as
`outcome`.  Entry: refuse when the user's lock is held; otherwise take the
lock, persist the pending-turn marker, open the turn log, dispatch.  Exit
paths: on success stop the watchdog, finalize the log as completed, clear
the marker; on a provider error log the error action, finalize as failed,
append to the durable error log, clear the marker; on a stuck abort run
`handleStuckAgent`, after which the aborted provider call rejects into the
same catch block (whose `endTurn` finds no open turn).  The `finally` block
releases the lock on every path. -/
def processMessage (userId message turnId : String) (startNow endNow : Nat)
    (params : Guardrails.AgentParams) (outcome : Outcome) (s : State) :
    Except String String × State :=
  if isProcessing userId s then
    (Except.error "Already processing a message", s)
  else
    let s1 : State :=
      { s with processingLock := lockSet s.processingLock userId true }
    let s2 : State :=
      { s1 with resilience := Resilience.savePendingTurn message s1.resilience }
    let s3 : State :=
      { s2 with logger := Guardrails.startTurn turnId startNow message params s2.logger }
    match outcome with
    | Outcome.success response =>
      let lg := (Guardrails.endTurn endNow true none s3.logger).1
      let s4 : State :=
        { processingLock := lockSet s3.processingLock userId false
          resilience := Resilience.clearPendingTurn s3.resilience
          logger := lg }
      (Except.ok response, s4)
    | Outcome.providerError msg =>
      let lg0 := Guardrails.logAction ⟨Guardrails.ActionType.error, endNow, none⟩ s3.logger
      let lg := (Guardrails.endTurn endNow false (some msg) lg0).1
      let s4 : State :=
        { processingLock := lockSet s3.processingLock userId false
          resilience :=
            Resilience.clearPendingTurn (Resilience.logError msg s3.resilience)
          logger := lg }
      (Except.error msg, s4)
    | Outcome.stuckAbort reason =>
      let sA := handleStuckAgent userId reason endNow s3
      let lg0 := Guardrails.logAction ⟨Guardrails.ActionType.error, endNow, none⟩ sA.logger
      let lg := (Guardrails.endTurn endNow false (some reason) lg0).1
      let s4 : State :=
        { processingLock := lockSet sA.processingLock userId false
          resilience :=
            Resilience.clearPendingTurn (Resilience.logError reason sA.resilience)
          logger := lg }
      (Except.error reason, s4)

end Service

namespace Examples

/-- A tool-call action. -/
def toolCall (n : String) (t : Nat) : Guardrails.TurnAction :=
  { type := Guardrails.ActionType.tool_call, timestamp := t, toolName := some n }

/-- A text-response action. -/
def textAction (t : Nat) : Guardrails.TurnAction :=
  { type := Guardrails.ActionType.text_response, timestamp := t }

/-- A turn over the timeout with 6 actions, 4 of them `search` tool calls. -/
def sameToolTurn6 : Guardrails.TurnLog :=
  { turnId := "t6", timestamp := 0, userPrompt := "p"
    actions := [toolCall "search" 1, textAction 2, toolCall "search" 3,
                toolCall "search" 4, textAction 5, toolCall "search" 6]
    params := [], duration := 11, completed := false }

/-- A turn over the timeout with only 4 actions, all `search` tool calls. -/
def sameToolTurn4 : Guardrails.TurnLog :=
  { turnId := "t4", timestamp := 0, userPrompt := "p"
    actions := [toolCall "search" 1, toolCall "search" 2,
                toolCall "search" 3, toolCall "search" 4]
    params := [], duration := 11, completed := false }

/-- A turn over the timeout whose last four tool calls alternate `a`/`b`
while the first four do not. -/
def tailAlternatingTurn : Guardrails.TurnLog :=
  { turnId := "tt", timestamp := 0, userPrompt := "p"
    actions := [toolCall "c" 1, toolCall "c" 2, toolCall "a" 3,
                toolCall "b" 4, toolCall "a" 5, toolCall "b" 6]
    params := [], duration := 11, completed := false }

/-- A turn over the timeout whose first four tool-call names alternate
`a`/`b`. -/
def headAlternatingTurn : Guardrails.TurnLog :=
  { turnId := "th", timestamp := 0, userPrompt := "p"
    actions := [toolCall "a" 1, toolCall "b" 2, toolCall "a" 3,
                toolCall "b" 4, toolCall "c" 5, toolCall "d" 6]
    params := [], duration := 11, completed := false }

/-- A service state in which user `u1` holds the processing lock. -/
def lockedState : Service.State :=
  { processingLock := [("u1", true)]
    resilience := ⟨none, none, []⟩
    logger := ⟨none, 0, []⟩ }

/-- A service state with no lock held. -/
def freeState : Service.State :=
  { processingLock := []
    resilience := ⟨none, none, []⟩
    logger := ⟨none, 0, []⟩ }

/-- A one-action completed turn, as driven through the logger. -/
def specExample : Guardrails.TurnSpec :=
  { turnId := "t", startTime := 0, prompt := "p", params := []
    actions := [textAction 1], endTime := 4, completed := true, abortReason := none }

end Examples

/-! ## Theorems -/

/-- All elements equal and the list nonempty: `dedup` is that singleton. -/
theorem dedup_of_all_eq {α : Type} [DecidableEq α] (l : List α) (x : α)
    (hne : l ≠ []) (h : ∀ y ∈ l, y = x) : l.dedup = [x] := by
  induction l with
  | nil => exact absurd rfl hne
  | cons a t ih =>
    have ha : a = x := h a (by simp)
    subst ha
    rcases t with _ | ⟨b, t'⟩
    · simp
    · have hall : ∀ y ∈ b :: t', y = a := fun y hy => h y (List.mem_cons_of_mem _ hy)
      have ht : (b :: t').dedup = [a] := ih (by simp) hall
      have hmem : a ∈ b :: t' := by
        have hb : b = a := hall b (by simp)
        simp [hb]
      rw [List.dedup_cons_of_mem hmem, ht]

/-- C1: a pending-turn marker with a non-empty prompt `X` makes the boot
dirty; one `handleDirtyBoot` call appends exactly one `CrashRecord` with
`pendingPrompt = X`, clears the marker and the error log, and returns the
recorded info; a second call finds no marker, returns null and changes
nothing. -/
theorem handleDirtyBoot_records_once_and_clears (s : Resilience.State) (X : String)
    (now now2 : Nat) (hX : s.pendingTurn = some X) (hne : X ≠ "") :
    Resilience.isDirtyBoot s = true ∧
    (Resilience.handleDirtyBoot now s).1 =
      some ⟨X, Resilience.getErrorLog s, s.crashes.length + 1⟩ ∧
    (Resilience.handleDirtyBoot now s).2.crashes =
      s.crashes ++ [⟨now, X, Resilience.getErrorLog s⟩] ∧
    (Resilience.handleDirtyBoot now s).2.pendingTurn = none ∧
    (Resilience.handleDirtyBoot now s).2.errorLog = none ∧
    Resilience.handleDirtyBoot now2 (Resilience.handleDirtyBoot now s).2 =
      (none, (Resilience.handleDirtyBoot now s).2) := by
  simp [Resilience.handleDirtyBoot, Resilience.getPendingTurn, hX, hne,
    Resilience.recordCrash, Resilience.clearErrorLog, Resilience.clearPendingTurn,
    Resilience.getCrashes, Resilience.isDirtyBoot]

/-- C1 witness. -/
theorem handleDirtyBoot_records_once_and_clears_witness :
    Resilience.isDirtyBoot ⟨some "X", some "err", []⟩ = true ∧
    (Resilience.handleDirtyBoot 7 ⟨some "X", some "err", []⟩).1 =
      some ⟨"X", Resilience.getErrorLog ⟨some "X", some "err", []⟩, 1⟩ ∧
    (Resilience.handleDirtyBoot 7 ⟨some "X", some "err", []⟩).2.crashes =
      [] ++ [⟨7, "X", Resilience.getErrorLog ⟨some "X", some "err", []⟩⟩] ∧
    (Resilience.handleDirtyBoot 7 ⟨some "X", some "err", []⟩).2.pendingTurn = none ∧
    (Resilience.handleDirtyBoot 7 ⟨some "X", some "err", []⟩).2.errorLog = none ∧
    Resilience.handleDirtyBoot 9 (Resilience.handleDirtyBoot 7 ⟨some "X", some "err", []⟩).2 =
      (none, (Resilience.handleDirtyBoot 7 ⟨some "X", some "err", []⟩).2) :=
  handleDirtyBoot_records_once_and_clears ⟨some "X", some "err", []⟩ "X" 7 9 rfl
    (by decide)

/-- C2: `shouldHalt` is true iff the stored crash count reaches the
configured threshold; with threshold 3 it is false at 2 records and true at
3. -/
theorem shouldHalt_iff_threshold (m : Nat) (s : Resilience.State) :
    (Resilience.shouldHalt m s = true ↔ m ≤ s.crashes.length) ∧
    Resilience.shouldHalt 3 ⟨none, none, [⟨1, "a", "e"⟩, ⟨2, "b", "e"⟩]⟩ = false ∧
    Resilience.shouldHalt 3
      ⟨none, none, [⟨1, "a", "e"⟩, ⟨2, "b", "e"⟩, ⟨3, "c", "e"⟩]⟩ = true := by
  refine ⟨?_, by decide, by decide⟩
  simp [Resilience.shouldHalt, Resilience.getCrashes]

/-- C9: a marker file holding the empty string makes `isDirtyBoot` true, yet
`handleDirtyBoot` returns null and leaves the whole state untouched: no
crash is recorded and neither the marker nor the error log is cleared. -/
theorem emptyMarker_dirty_but_nothing_recorded (s : Resilience.State) (now : Nat)
    (h : s.pendingTurn = some "") :
    Resilience.isDirtyBoot s = true ∧
    Resilience.handleDirtyBoot now s = (none, s) := by
  simp [Resilience.isDirtyBoot, Resilience.handleDirtyBoot, Resilience.getPendingTurn, h]

/-- C9 witness. -/
theorem emptyMarker_dirty_but_nothing_recorded_witness :
    Resilience.isDirtyBoot ⟨some "", some "err", []⟩ = true ∧
    Resilience.handleDirtyBoot 7 ⟨some "", some "err", []⟩ =
      (none, ⟨some "", some "err", []⟩) :=
  emptyMarker_dirty_but_nothing_recorded ⟨some "", some "err", []⟩ 7 rfl

/-- C3: on a dirty boot with a non-empty marker the trace records the crash
strictly before the breaker check, and the breaker sees the fresh record
(`mc ≤ old count + 1`); moreover, for every starting state, a tripped
breaker is followed by the operator notification and a non-zero exit, and
the channels (turn dispatch) never start. -/
theorem bootSequence_records_before_breaker (mc now : Nat) (s : Resilience.State)
    (X : String) (hX : s.pendingTurn = some X) (hne : X ≠ "") :
    ((Boot.bootSequence mc now s).1 =
      if mc ≤ s.crashes.length + 1 then
        [Boot.Event.dirtyDetected true, Boot.Event.crashRecorded X,
         Boot.Event.breakerChecked true, Boot.Event.operatorNotified,
         Boot.Event.exited 1]
      else
        [Boot.Event.dirtyDetected true, Boot.Event.crashRecorded X,
         Boot.Event.breakerChecked false, Boot.Event.channelsStarted]) ∧
    (∀ s' : Resilience.State,
      Boot.Event.breakerChecked true ∈ (Boot.bootSequence mc now s').1 →
      Boot.Event.operatorNotified ∈ (Boot.bootSequence mc now s').1 ∧
      Boot.Event.exited 1 ∈ (Boot.bootSequence mc now s').1 ∧
      Boot.Event.channelsStarted ∉ (Boot.bootSequence mc now s').1) := by
  constructor
  · by_cases hmc : mc ≤ s.crashes.length + 1 <;>
      simp [Boot.bootSequence, Resilience.isDirtyBoot, Resilience.handleDirtyBoot,
        Resilience.getPendingTurn, hX, hne, Resilience.shouldHalt,
        Resilience.getCrashes, Resilience.recordCrash, Resilience.clearErrorLog,
        Resilience.clearPendingTurn, hmc]
  · intro s' hmem
    rcases hp : s'.pendingTurn with _ | p
    · by_cases hh : Resilience.shouldHalt mc (Resilience.handleCleanBoot s') = true <;>
        simp_all [Boot.bootSequence, Resilience.isDirtyBoot, Resilience.getPendingTurn]
    · by_cases hpe : p = ""
      · subst hpe
        by_cases hh : Resilience.shouldHalt mc s' = true <;>
          simp_all [Boot.bootSequence, Resilience.isDirtyBoot,
            Resilience.handleDirtyBoot, Resilience.getPendingTurn]
      · by_cases hh :
          Resilience.shouldHalt mc (Resilience.handleDirtyBoot now s').2 = true <;>
          simp_all [Boot.bootSequence, Resilience.isDirtyBoot,
            Resilience.handleDirtyBoot, Resilience.getPendingTurn]

/-- C3 witness: threshold 3, two prior crashes, dirty boot — the fresh crash
is counted and the breaker trips. -/
theorem bootSequence_records_before_breaker_witness :
    ((Boot.bootSequence 3 7 ⟨some "X", some "e", [⟨1, "a", "l"⟩, ⟨2, "b", "l"⟩]⟩).1 =
      if 3 ≤ ([⟨1, "a", "l"⟩, ⟨2, "b", "l"⟩] : List Resilience.CrashRecord).length + 1 then
        [Boot.Event.dirtyDetected true, Boot.Event.crashRecorded "X",
         Boot.Event.breakerChecked true, Boot.Event.operatorNotified,
         Boot.Event.exited 1]
      else
        [Boot.Event.dirtyDetected true, Boot.Event.crashRecorded "X",
         Boot.Event.breakerChecked false, Boot.Event.channelsStarted]) ∧
    (∀ s' : Resilience.State,
      Boot.Event.breakerChecked true ∈ (Boot.bootSequence 3 7 s').1 →
      Boot.Event.operatorNotified ∈ (Boot.bootSequence 3 7 s').1 ∧
      Boot.Event.exited 1 ∈ (Boot.bootSequence 3 7 s').1 ∧
      Boot.Event.channelsStarted ∉ (Boot.bootSequence 3 7 s').1) :=
  bootSequence_records_before_breaker 3 7
    ⟨some "X", some "e", [⟨1, "a", "l"⟩, ⟨2, "b", "l"⟩]⟩ "X" rfl (by decide)


/-- C4 counterexample: a turn of only 4 actions — all `search` tool calls —
over the timeout satisfies the claim's premises (its last-6 window holds ≥4
tool calls, all naming the same tool), yet the guard `actions.length < 6`
keeps `hasRepetitivePattern` false and the analysis falls through to the
generic timeout reason instead of the repetitive one. -/
theorem heuristics_same_tool_fails_below_six_actions :
    10 < Examples.sameToolTurn4.duration ∧
    4 ≤ ((Guardrails.sliceLast 6 Examples.sameToolTurn4.actions).filter
          (fun a => a.type = Guardrails.ActionType.tool_call)).length ∧
    (∀ a ∈ (Guardrails.sliceLast 6 Examples.sameToolTurn4.actions).filter
          (fun a => a.type = Guardrails.ActionType.tool_call),
       a.toolName = some "search") ∧
    (Guardrails.analyzeWithHeuristics 10 Examples.sameToolTurn4).isStuck = true ∧
    (Guardrails.analyzeWithHeuristics 10 Examples.sameToolTurn4).reason ≠
      some Guardrails.repetitiveReason := by
  decide

/-- C4 (amended): under the timeout the heuristic never reports stuck; over
the timeout, a turn with at least 6 actions whose last 6 actions hold at
least 4 tool calls all naming the same tool is reported stuck with the
repetitive-action-pattern reason. -/
theorem heuristics_timeout_gate_and_same_tool_repetition (timeout : Nat)
    (turn : Guardrails.TurnLog) :
    (turn.duration ≤ timeout →
      (Guardrails.analyzeWithHeuristics timeout turn).isStuck = false) ∧
    (timeout < turn.duration →
      6 ≤ turn.actions.length →
      ∀ nm : String,
        4 ≤ ((Guardrails.sliceLast 6 turn.actions).filter
              (fun a => a.type = Guardrails.ActionType.tool_call)).length →
        (∀ a ∈ (Guardrails.sliceLast 6 turn.actions).filter
              (fun a => a.type = Guardrails.ActionType.tool_call),
           a.toolName = some nm) →
        Guardrails.analyzeWithHeuristics timeout turn =
          { isStuck := true, reason := some Guardrails.repetitiveReason,
            recommendation := "Abort turn and notify user",
            analysisSource := Guardrails.AnalysisSource.heuristic }) := by
  constructor
  · intro hdur
    simp [Guardrails.analyzeWithHeuristics, Nat.not_lt.mpr hdur]
  · intro hdur hlen nm hcalls hnames
    have hrep : Guardrails.hasRepetitivePattern turn.actions = true := by
      unfold Guardrails.hasRepetitivePattern
      rw [if_neg (by omega)]
      simp only [hcalls, if_pos]
      have hded :
          (((Guardrails.sliceLast 6 turn.actions).filter
              (fun a => a.type = Guardrails.ActionType.tool_call)).map
            (fun a => a.toolName)).dedup = [some nm] := by
        apply dedup_of_all_eq
        · intro hnil
          rw [← List.length_eq_zero] at hnil
          rw [List.length_map] at hnil
          omega
        · intro y hy
          rcases List.mem_map.mp hy with ⟨a, ha, rfl⟩
          exact hnames a ha
      simp [hded]
    simp [Guardrails.analyzeWithHeuristics, hdur, hrep]

/-- C4 witness: 6 actions, 4 `search` tool calls, duration 11 > timeout 10;
and the under-timeout gate at duration 11 ≤ timeout 20. -/
theorem heuristics_timeout_gate_and_same_tool_repetition_witness :
    ((Guardrails.analyzeWithHeuristics 20 Examples.sameToolTurn6).isStuck = false) ∧
    (Guardrails.analyzeWithHeuristics 10 Examples.sameToolTurn6 =
      { isStuck := true, reason := some Guardrails.repetitiveReason,
        recommendation := "Abort turn and notify user",
        analysisSource := Guardrails.AnalysisSource.heuristic }) :=
  ⟨(heuristics_timeout_gate_and_same_tool_repetition 20 Examples.sameToolTurn6).1
      (by decide),
   (heuristics_timeout_gate_and_same_tool_repetition 10 Examples.sameToolTurn6).2
      (by decide) (by decide) "search" (by decide) (by decide)⟩

/-- C5 counterexample: a turn over the timeout whose last-6 actions are six
tool calls named `c,c,a,b,a,b` — the LAST four tool-call names alternate
`a`-`b`-`a`-`b` with `a ≠ b` — is not flagged repetitive: the code tests the
FIRST four tool-call names (`toolNames[0..3] = c,c,a,b`), so the analysis
falls through to the generic timeout reason. -/
theorem heuristics_alternation_tail_not_detected :
    10 < Examples.tailAlternatingTurn.duration ∧
    4 ≤ ((Guardrails.sliceLast 6 Examples.tailAlternatingTurn.actions).filter
          (fun a => a.type = Guardrails.ActionType.tool_call)).length ∧
    Guardrails.sliceLast 4
        (((Guardrails.sliceLast 6 Examples.tailAlternatingTurn.actions).filter
            (fun a => a.type = Guardrails.ActionType.tool_call)).map
          (fun a => a.toolName)) =
      [some "a", some "b", some "a", some "b"] ∧
    ("a" : String) ≠ "b" ∧
    (Guardrails.analyzeWithHeuristics 10 Examples.tailAlternatingTurn).isStuck = true ∧
    (Guardrails.analyzeWithHeuristics 10 Examples.tailAlternatingTurn).reason ≠
      some Guardrails.repetitiveReason := by
  decide

/-- C5 (amended): over the timeout, a turn with at least 6 actions whose
last 6 actions hold at least 4 tool calls such that the FIRST four of those
tool calls' names satisfy `n₀ = n₂` and `n₁ = n₃` (in particular an A-B-A-B
alternation at the head) is reported stuck with the
repetitive-action-pattern reason. -/
theorem heuristics_head_alternation_repetition (timeout : Nat)
    (turn : Guardrails.TurnLog) :
    timeout < turn.duration →
    6 ≤ turn.actions.length →
    ∀ (a b : Option String) (rest : List (Option String)),
      ((Guardrails.sliceLast 6 turn.actions).filter
          (fun x => x.type = Guardrails.ActionType.tool_call)).map
        (fun x => x.toolName) = a :: b :: a :: b :: rest →
      Guardrails.analyzeWithHeuristics timeout turn =
        { isStuck := true, reason := some Guardrails.repetitiveReason,
          recommendation := "Abort turn and notify user",
          analysisSource := Guardrails.AnalysisSource.heuristic } := by
  intro hdur hlen a b rest hmap
  have hrep : Guardrails.hasRepetitivePattern turn.actions = true := by
    unfold Guardrails.hasRepetitivePattern
    rw [if_neg (by omega)]
    have hcalls :
        4 ≤ ((Guardrails.sliceLast 6 turn.actions).filter
              (fun x => x.type = Guardrails.ActionType.tool_call)).length := by
      have := congrArg List.length hmap
      rw [List.length_map] at this
      simp [this]
    simp only [hcalls, if_pos]
    by_cases hded :
        (((Guardrails.sliceLast 6 turn.actions).filter
            (fun x => x.type = Guardrails.ActionType.tool_call)).map
          (fun x => x.toolName)).dedup.length = 1
    · simp [hded]
    · simp only [hded, if_neg, if_false]
      rw [hmap]
      simp
  simp [Guardrails.analyzeWithHeuristics, hdur, hrep]

/-- C5 witness: six tool calls named `a,b,a,b,c,d`, duration 11 > timeout
10. -/
theorem heuristics_head_alternation_repetition_witness :
    Guardrails.analyzeWithHeuristics 10 Examples.headAlternatingTurn =
      { isStuck := true, reason := some Guardrails.repetitiveReason,
        recommendation := "Abort turn and notify user",
        analysisSource := Guardrails.AnalysisSource.heuristic } :=
  heuristics_head_alternation_repetition 10 Examples.headAlternatingTurn
    (by decide) (by decide) (some "a") (some "b") [some "c", some "d"] (by decide)

/-- C6: when the registered analyst callback throws at the deadline, the
watchdog's settled analysis is exactly the heuristic analysis of the same
turn, and its final decision (stuck delivered to `onStuck`, or not-stuck
reschedule) coincides with the heuristic-only watchdog's decision. -/
theorem watchdog_analyst_throw_falls_back (timeout : Nat)
    (turn : Guardrails.TurnLog) :
    Guardrails.checkIfStuckVerdict timeout (some turn)
        (some Guardrails.AnalystOutcome.thrown) =
      some (Guardrails.analyzeWithHeuristics timeout turn) ∧
    Guardrails.checkIfStuck timeout (some turn)
        (some Guardrails.AnalystOutcome.thrown) =
      Guardrails.checkIfStuck timeout (some turn) none := by
  constructor
  · simp [Guardrails.checkIfStuckVerdict]
  · simp [Guardrails.checkIfStuck, Guardrails.checkIfStuckVerdict]


/-- Reading a user's lock entry right after setting it. -/
theorem lockGet_lockSet_self (m : List (String × Bool)) (u : String) (b : Bool) :
    Service.lockGet (Service.lockSet m u b) u = b := by
  induction m with
  | nil => simp [Service.lockGet, Service.lockSet]
  | cons kv rest ih =>
    rcases kv with ⟨k, v⟩
    by_cases h : k = u
    · simp [Service.lockGet, Service.lockSet, h]
    · simp only [Service.lockSet, if_neg h]
      simp only [Service.lockGet] at ih ⊢
      rw [List.find?_cons_of_neg _ (by simp [h])]
      exact ih

/-- Setting one user's lock entry leaves every other user's entry alone. -/
theorem lockGet_lockSet_ne (m : List (String × Bool)) (u u' : String) (b : Bool)
    (hne : u ≠ u') :
    Service.lockGet (Service.lockSet m u b) u' = Service.lockGet m u' := by
  induction m with
  | nil =>
    simp only [Service.lockSet, Service.lockGet]
    rw [List.find?_cons_of_neg _ (by simp [hne])]
  | cons kv rest ih =>
    rcases kv with ⟨k, v⟩
    by_cases h : k = u
    · simp only [Service.lockSet, if_pos h]
      simp only [Service.lockGet]
      rw [List.find?_cons_of_neg _ (by simp [hne]),
        List.find?_cons_of_neg _ (by simp [h, hne])]
    · simp only [Service.lockSet, if_neg h]
      simp only [Service.lockGet] at ih ⊢
      by_cases h' : k = u'
      · rw [List.find?_cons_of_pos _ (by simp [h']),
          List.find?_cons_of_pos _ (by simp [h'])]
      · rw [List.find?_cons_of_neg _ (by simp [h']),
          List.find?_cons_of_neg _ (by simp [h'])]
        exact ih

/-- C7: a `processMessage` call for a user whose lock is held fails with the
already-processing error and leaves the state untouched (no marker written,
no turn opened); a call for a different user is not blocked by the first
user's lock; and on every exit path — success, provider error, or stuck
abort — the user's lock ends up released. -/
theorem processMessage_per_user_lock (u1 u2 msg turnId : String) (t1 t2 : Nat)
    (params : Guardrails.AgentParams) (outcome : Service.Outcome)
    (s : Service.State) :
    (Service.isProcessing u1 s = true →
      Service.processMessage u1 msg turnId t1 t2 params outcome s =
        (Except.error "Already processing a message", s)) ∧
    (u1 ≠ u2 → Service.isProcessing u2 s = false → ∀ resp : String,
      (Service.processMessage u2 msg turnId t1 t2 params
          (Service.Outcome.success resp)
          { s with processingLock := Service.lockSet s.processingLock u1 true }).1 =
        Except.ok resp) ∧
    (Service.isProcessing u1 s = false →
      Service.isProcessing u1
        (Service.processMessage u1 msg turnId t1 t2 params outcome s).2 = false) := by
  refine ⟨?_, ?_, ?_⟩
  · intro h
    simp [Service.processMessage, h]
  · intro hne h resp
    have hu2 : Service.isProcessing u2
        { s with processingLock := Service.lockSet s.processingLock u1 true } = false := by
      simp only [Service.isProcessing] at h ⊢
      rw [lockGet_lockSet_ne _ _ _ _ hne]
      exact h
    simp [Service.processMessage, hu2]
  · intro h
    simp only [Service.isProcessing] at h
    cases outcome <;>
      simp [Service.processMessage, h, Service.isProcessing, Service.handleStuckAgent,
        lockGet_lockSet_self]

/-- C7 witness: `u1` locked → second `u1` call rejected with the state
unchanged; `u2` succeeds while `u1` is locked; a stuck abort for `u1` ends
with `u1`'s lock released. -/
theorem processMessage_per_user_lock_witness :
    (Service.processMessage "u1" "m" "t" 0 5 [] (Service.Outcome.success "ok")
        Examples.lockedState =
      (Except.error "Already processing a message", Examples.lockedState)) ∧
    ((Service.processMessage "u2" "m" "t" 0 5 [] (Service.Outcome.success "ok")
        { Examples.freeState with
            processingLock :=
              Service.lockSet Examples.freeState.processingLock "u1" true }).1 =
      Except.ok "ok") ∧
    (Service.isProcessing "u1"
        (Service.processMessage "u1" "m" "t" 0 5 []
          (Service.Outcome.stuckAbort "r") Examples.freeState).2 = false) :=
  ⟨(processMessage_per_user_lock "u1" "u2" "m" "t" 0 5 []
      (Service.Outcome.success "ok") Examples.lockedState).1 (by decide),
   (processMessage_per_user_lock "u1" "u2" "m" "t" 0 5 []
      (Service.Outcome.success "ok") Examples.freeState).2.1 (by decide) (by decide) "ok",
   (processMessage_per_user_lock "u1" "u2" "m" "t" 0 5 []
      (Service.Outcome.stuckAbort "r") Examples.freeState).2.2 (by decide)⟩

/-- `sliceLast` is `take` on the reversed list. -/
theorem sliceLast_reverse {α : Type} (n : Nat) (xs : List α) :
    (Guardrails.sliceLast n xs).reverse = xs.reverse.take n := by
  unfold Guardrails.sliceLast
  rw [List.reverse_drop]
  by_cases h : n ≤ xs.length
  · rw [Nat.sub_sub_self h]
  · have h1 : xs.length - (xs.length - n) = xs.length := by omega
    rw [h1, List.take_of_length_le (by simp), List.take_of_length_le (by simp; omega)]

/-- Appending one element and re-trimming forgets an earlier trim. -/
theorem sliceLast_append_single {α : Type} (n : Nat) (xs : List α) (y : α) :
    Guardrails.sliceLast n (Guardrails.sliceLast n xs ++ [y]) =
      Guardrails.sliceLast n (xs ++ [y]) := by
  apply List.reverse_injective
  rw [sliceLast_reverse, sliceLast_reverse, List.reverse_append, List.reverse_append]
  simp only [List.reverse_singleton, List.singleton_append, sliceLast_reverse]
  cases n with
  | zero => simp
  | succ m =>
    rw [List.take_succ_cons, List.take_succ_cons, List.take_take,
      Nat.min_eq_left (Nat.le_succ m)]

/-- Folding `saveTurnLog` over finalized turns keeps exactly the trimmed
tail of everything appended. -/
theorem foldl_saveTurnLog (ts : List Guardrails.TurnLog) (init : List Guardrails.TurnLog) :
    ts.foldl (fun acc t => Guardrails.saveTurnLog t acc)
        (Guardrails.sliceLast 100 init) =
      Guardrails.sliceLast 100 (init ++ ts) := by
  induction ts generalizing init with
  | nil => simp
  | cons t ts ih =>
    rw [List.foldl_cons]
    have hstep : Guardrails.saveTurnLog t (Guardrails.sliceLast 100 init) =
        Guardrails.sliceLast 100 (init ++ [t]) := by
      unfold Guardrails.saveTurnLog
      exact sliceLast_append_single 100 init t
    rw [hstep, ih (init ++ [t])]
    simp

/-- Folding `logAction` appends the actions to the open turn. -/
theorem foldl_logAction (as : List Guardrails.TurnAction) (st : Guardrails.LoggerState)
    (t : Guardrails.TurnLog) (h : st.currentTurn = some t) :
    as.foldl (fun acc a => Guardrails.logAction a acc) st =
      { st with currentTurn := some { t with actions := t.actions ++ as } } := by
  induction as generalizing st t with
  | nil =>
    simp only [List.foldl_nil, List.append_nil]
    cases st
    simp_all
  | cons a as ih =>
    rw [List.foldl_cons]
    have hstep : Guardrails.logAction a st =
        { st with currentTurn := some { t with actions := t.actions ++ [a] } } := by
      simp [Guardrails.logAction, h]
    rw [hstep,
      ih { st with currentTurn := some { t with actions := t.actions ++ [a] } }
        { t with actions := t.actions ++ [a] } rfl]
    simp

/-- One driven turn resets the logger and persists exactly its finalized
record. -/
theorem runTurn_spec (st : Guardrails.LoggerState) (sp : Guardrails.TurnSpec) :
    Guardrails.runTurn st sp =
      { currentTurn := none, turnStartTime := 0,
        loggedTurns :=
          Guardrails.saveTurnLog (Guardrails.finalizedOf sp) st.loggedTurns } := by
  have hfold := foldl_logAction sp.actions
    (Guardrails.startTurn sp.turnId sp.startTime sp.prompt sp.params st)
    { turnId := sp.turnId, timestamp := sp.startTime, userPrompt := sp.prompt,
      actions := [], params := Guardrails.completeParams sp.params, duration := 0,
      completed := false, abortReason := none } (by simp [Guardrails.startTurn])
  simp only [Guardrails.runTurn]
  rw [hfold]
  simp [Guardrails.startTurn, Guardrails.endTurn, Guardrails.finalizedOf]

/-- The persisted turns after a sequence of driven turns are the fold of
`saveTurnLog` over their finalized records. -/
theorem foldl_runTurn_loggedTurns (specs : List Guardrails.TurnSpec)
    (init : Guardrails.LoggerState) :
    (specs.foldl Guardrails.runTurn init).loggedTurns =
      (specs.map Guardrails.finalizedOf).foldl
        (fun acc t => Guardrails.saveTurnLog t acc) init.loggedTurns := by
  induction specs generalizing init with
  | nil => simp
  | cons sp specs ih =>
    rw [List.foldl_cons, List.map_cons, List.foldl_cons, ih, runTurn_spec]

/-- C8: starting from an empty log, finalizing any sequence of turns leaves
exactly the last 100 finalized records, in finalization order; the kept
records are an unmodified suffix of the finalized sequence, and once more
than 100 turns have been finalized exactly 100 remain. -/
theorem turnLog_ring_buffer (specs : List Guardrails.TurnSpec)
    (init : Guardrails.LoggerState) (hinit : init.loggedTurns = []) :
    (specs.foldl Guardrails.runTurn init).loggedTurns =
      (specs.map Guardrails.finalizedOf).drop (specs.length - 100) ∧
    (specs.foldl Guardrails.runTurn init).loggedTurns <:+
      specs.map Guardrails.finalizedOf ∧
    (100 ≤ specs.length →
      ((specs.foldl Guardrails.runTurn init).loggedTurns).length = 100) := by
  have hmain : (specs.foldl Guardrails.runTurn init).loggedTurns =
      (specs.map Guardrails.finalizedOf).drop (specs.length - 100) := by
    rw [foldl_runTurn_loggedTurns, hinit]
    have h0 : ([] : List Guardrails.TurnLog) = Guardrails.sliceLast 100 [] := rfl
    rw [h0, foldl_saveTurnLog]
    simp [Guardrails.sliceLast]
  refine ⟨hmain, ?_, ?_⟩
  · rw [hmain]
    exact List.drop_suffix _ _
  · intro hlen
    rw [hmain, List.length_drop, List.length_map]
    omega

/-- C8 witness: 150 identical turns leave `150 - 100 = 50` dropped and the
last 100 finalized records kept. -/
theorem turnLog_ring_buffer_witness :
    ((List.replicate 150 Examples.specExample).foldl Guardrails.runTurn
        ⟨none, 0, []⟩).loggedTurns =
      ((List.replicate 150 Examples.specExample).map Guardrails.finalizedOf).drop
        ((List.replicate 150 Examples.specExample).length - 100) ∧
    ((List.replicate 150 Examples.specExample).foldl Guardrails.runTurn
        ⟨none, 0, []⟩).loggedTurns <:+
      (List.replicate 150 Examples.specExample).map Guardrails.finalizedOf ∧
    (100 ≤ (List.replicate 150 Examples.specExample).length →
      (((List.replicate 150 Examples.specExample).foldl Guardrails.runTurn
          ⟨none, 0, []⟩).loggedTurns).length = 100) :=
  turnLog_ring_buffer (List.replicate 150 Examples.specExample) ⟨none, 0, []⟩ rfl

/-- Allocation does not disturb existing objects. -/
theorem readObj_append_of_lt (h l : Params.Heap) (r : Params.Ref)
    (hr : r < h.length) : Params.readObj (h ++ l) r = Params.readObj h r := by
  unfold Params.readObj
  rw [List.getElem?_append_left hr]

/-- Reading a freshly allocated object gives its initial value. -/
theorem readObj_concat_self (h : Params.Heap) (v : Guardrails.AgentParams) :
    Params.readObj (h ++ [v]) h.length = v := by
  unfold Params.readObj
  rw [List.getElem?_concat_length]
  rfl

/-- Writing one object leaves every other object unchanged. -/
theorem readObj_writeObj_ne (h : Params.Heap) (r r' : Params.Ref)
    (v : Guardrails.AgentParams) (hne : r' ≠ r) :
    Params.readObj (Params.writeObj h r' v) r = Params.readObj h r := by
  unfold Params.readObj Params.writeObj
  rw [List.getElem?_set_ne hne]

/-- C10: `getParams` hands out a fresh shallow copy of the current params:
the copy is value-equal to the store's current object; the store's current
pointer and object are untouched; mutating the returned object never
changes the store; two consecutive `getParams` calls with no intervening
mutator return equal parameter sets; and `saveAsDefaults` also leaves the
current object unchanged. -/
theorem paramsManager_getParams_copy (s : Params.PMState) (hv : Params.Valid s) :
    (Params.readObj (Params.getParams s).1.heap (Params.getParams s).2 =
      Params.readObj s.heap s.currentRef) ∧
    ((Params.getParams s).1.currentRef = s.currentRef ∧
      Params.readObj (Params.getParams s).1.heap (Params.getParams s).1.currentRef =
        Params.readObj s.heap s.currentRef) ∧
    (∀ (k : String) (v : Guardrails.PVal),
      Params.readObj
          (Params.assignKey (Params.getParams s).2 k v (Params.getParams s).1).heap
          s.currentRef =
        Params.readObj s.heap s.currentRef) ∧
    (Params.readObj (Params.getParams (Params.getParams s).1).1.heap
        (Params.getParams (Params.getParams s).1).2 =
      Params.readObj (Params.getParams s).1.heap (Params.getParams s).2) ∧
    (Params.readObj (Params.saveAsDefaults s).heap
        (Params.saveAsDefaults s).currentRef =
      Params.readObj s.heap s.currentRef) := by
  obtain ⟨hc, _⟩ := hv
  have hcopy :
      Params.readObj (s.heap ++ [Params.readObj s.heap s.currentRef]) s.heap.length =
        Params.readObj s.heap s.currentRef :=
    readObj_concat_self s.heap (Params.readObj s.heap s.currentRef)
  have hframe :
      Params.readObj (s.heap ++ [Params.readObj s.heap s.currentRef]) s.currentRef =
        Params.readObj s.heap s.currentRef :=
    readObj_append_of_lt s.heap _ s.currentRef hc
  refine ⟨hcopy, ⟨rfl, hframe⟩, ?_, ?_, hframe⟩
  · intro k v
    exact (readObj_writeObj_ne (s.heap ++ [Params.readObj s.heap s.currentRef])
        s.currentRef s.heap.length _ (ne_of_gt hc)).trans hframe
  · exact (readObj_concat_self (s.heap ++ [Params.readObj s.heap s.currentRef])
        (Params.readObj (s.heap ++ [Params.readObj s.heap s.currentRef]) s.currentRef)).trans
      (hframe.trans hcopy.symm)

/-- C10 witness: a two-object heap with distinct current and default
objects. -/
theorem paramsManager_getParams_copy_witness :
    (Params.readObj
        (Params.getParams ⟨[[("model", Guardrails.PVal.str "x")], []], 0, 1⟩).1.heap
        (Params.getParams ⟨[[("model", Guardrails.PVal.str "x")], []], 0, 1⟩).2 =
      Params.readObj [[("model", Guardrails.PVal.str "x")], []] 0) ∧
    ((Params.getParams ⟨[[("model", Guardrails.PVal.str "x")], []], 0, 1⟩).1.currentRef = 0 ∧
      Params.readObj
          (Params.getParams ⟨[[("model", Guardrails.PVal.str "x")], []], 0, 1⟩).1.heap
          (Params.getParams ⟨[[("model", Guardrails.PVal.str "x")], []], 0, 1⟩).1.currentRef =
        Params.readObj [[("model", Guardrails.PVal.str "x")], []] 0) ∧
    (∀ (k : String) (v : Guardrails.PVal),
      Params.readObj
          (Params.assignKey
            (Params.getParams ⟨[[("model", Guardrails.PVal.str "x")], []], 0, 1⟩).2 k v
            (Params.getParams ⟨[[("model", Guardrails.PVal.str "x")], []], 0, 1⟩).1).heap
          0 =
        Params.readObj [[("model", Guardrails.PVal.str "x")], []] 0) ∧
    (Params.readObj
        (Params.getParams
          (Params.getParams ⟨[[("model", Guardrails.PVal.str "x")], []], 0, 1⟩).1).1.heap
        (Params.getParams
          (Params.getParams ⟨[[("model", Guardrails.PVal.str "x")], []], 0, 1⟩).1).2 =
      Params.readObj
        (Params.getParams ⟨[[("model", Guardrails.PVal.str "x")], []], 0, 1⟩).1.heap
        (Params.getParams ⟨[[("model", Guardrails.PVal.str "x")], []], 0, 1⟩).2) ∧
    (Params.readObj
        (Params.saveAsDefaults ⟨[[("model", Guardrails.PVal.str "x")], []], 0, 1⟩).heap
        (Params.saveAsDefaults ⟨[[("model", Guardrails.PVal.str "x")], []], 0, 1⟩).currentRef =
      Params.readObj [[("model", Guardrails.PVal.str "x")], []] 0) :=
  paramsManager_getParams_copy ⟨[[("model", Guardrails.PVal.str "x")], []], 0, 1⟩
    (by constructor <;> decide)
